import Mathlib

/-!
# Shallow embedding of the cities service (FastAPI app `app/api/cities.py`)

This file embeds the core of the repository's cities API in Lean 4:

* the pure CSV row validator `parse_csv_row`;
* the batched upsert `upsert_cities_batch` against a relational store,
  modelled as a list of rows with integer primary keys;
* the import pipeline `import_cities` (extension / header guards, per-row
  parsing, batching at `BATCH_SIZE`, error-example capping, counters);
* the haversine distance and the radius search `get_cities_within_radius`.

Modelling conventions:

* Python `float` values (latitude, longitude, radius, distances) are
  modelled as real numbers `ℝ`; the trigonometric haversine computation
  uses `Real.sin`, `Real.cos`, `Real.arcsin`, `Real.sqrt`.
* Numeric literals parsed out of CSV text are modelled as rationals `ℚ`
  (exact decimal values), cast into `ℝ` when written to the store.
* The relational store is a list of `City` rows; the primary-key
  invariant (no two rows share an `id`) is carried as a hypothesis where
  a theorem needs it.
* Database failures (exceptions raised while writing a batch) are
  modelled by an oracle `BatchOracle`: `none` means the write succeeds,
  `some msg` means it raises an exception rendered as `msg`.
* The CSV reader layer (UTF-8 decode + `csv.reader`) is abstracted as the
  list of tokenized rows it yields; an empty upload yields no rows, and a
  blank first line yields an empty header row (both falsy in the source).
-/

namespace Cities

/-- `BATCH_SIZE = 5000` from the source. -/
def BATCH_SIZE : Nat := 5000

/-- `MAX_ERROR_EXAMPLES = 10` from the source. -/
def MAX_ERROR_EXAMPLES : Nat := 10

/-! ## Python string primitives (list-based, so they evaluate) -/

/-- Drop the trailing characters satisfying `p` (helper for Python's
`str.strip(chars)`, which removes *all* leading and trailing occurrences). -/
def dropTrailingWhile (p : Char → Bool) (l : List Char) : List Char :=
  (l.reverse.dropWhile p).reverse

/-- The ASCII whitespace Python's `str.strip()` removes
(`' '`, `'\t'`, `'\n'`, `'\r'`, `'\x0b'`, `'\x0c'`; further Unicode
whitespace is irrelevant to every claim). -/
def pyWhitespace (c : Char) : Bool :=
  c == ' ' || c == '\t' || c == '\n' || c == '\r' || c == '\x0b' || c == '\x0c'

/-- Python `s.strip()`: remove surrounding whitespace. -/
def pyStrip (s : String) : String :=
  ⟨dropTrailingWhile pyWhitespace (s.toList.dropWhile pyWhitespace)⟩

/-- Python `s.upper()` (ASCII case mapping, which is all the data uses). -/
def pyUpper (s : String) : String :=
  ⟨s.toList.map Char.toUpper⟩

/-- Python slicing `s[:n]`: the first `n` characters. -/
def pyTake (s : String) (n : Nat) : String :=
  ⟨s.toList.take n⟩

/-- Python `s.endswith(t)`. -/
def pyEndsWith (s t : String) : Bool :=
  t.toList.isSuffixOf s.toList

/-! ## Field cleaning: `field.strip().strip('"')` -/

/-- Python `s.strip('"')`: remove every leading and trailing `"` character. -/
def stripQuotes (s : String) : String :=
  ⟨dropTrailingWhile (· == '"') (s.toList.dropWhile (· == '"'))⟩

/-- The per-field cleaning of `parse_csv_row`:
`field.strip().strip('"')` — surrounding whitespace removed, then all
surrounding double quotes removed. -/
def cleanField (s : String) : String :=
  stripQuotes (pyStrip s)

/-! ## Python numeric literal parsing (`int(s)` and `float(s)`) -/

/-- Value of a digit string (big-endian). -/
def digitsToNat (l : List Char) : Nat :=
  l.foldl (fun n c => n * 10 + (c.toNat - '0'.toNat)) 0

/-- Model of Python `int(s)` on the strings this pipeline feeds it:
surrounding whitespace is ignored, then an optional sign followed by at
least one decimal digit.  (Python additionally accepts `_` digit
separators; no claim depends on that corner.)  Returns `none` where
`int(s)` raises `ValueError`. -/
def pyInt (s : String) : Option Int :=
  let t := (pyStrip s).toList
  match t with
  | '+' :: rest =>
      if rest ≠ [] ∧ rest.all (·.isDigit) then some (digitsToNat rest : Int) else none
  | '-' :: rest =>
      if rest ≠ [] ∧ rest.all (·.isDigit) then some (-(digitsToNat rest : Int)) else none
  | l =>
      if l ≠ [] ∧ l.all (·.isDigit) then some (digitsToNat l : Int) else none

/-- Model of Python `float(s)` on decimal literals: optional sign,
digits with an optional decimal point (at least one digit overall), and
an optional exponent part.  The value is represented exactly as a
rational.  (`inf`/`nan` spellings are not modelled; no claim depends on
them.)  Returns `none` where `float(s)` raises `ValueError`. -/
def pyFloat (s : String) : Option ℚ :=
  let t := (pyStrip s).toList
  let sr : Bool × List Char :=
    match t with
    | '+' :: r => (false, r)
    | '-' :: r => (true, r)
    | r => (false, r)
  let neg := sr.1
  let r0 := sr.2
  let ip := r0.takeWhile (·.isDigit)
  let r1 := r0.dropWhile (·.isDigit)
  let fr : List Char × List Char :=
    match r1 with
    | '.' :: r => (r.takeWhile (·.isDigit), r.dropWhile (·.isDigit))
    | _ => ([], r1)
  let fp := fr.1
  let r2 := fr.2
  if ip.length + fp.length = 0 then none
  else
    let mag : Nat := digitsToNat (ip ++ fp)
    let mnum : Int := if neg then -(mag : Int) else (mag : Int)
    match r2 with
    | [] => some (mkRat mnum (10 ^ fp.length))
    | e :: r3 =>
      if e = 'e' ∨ e = 'E' then
        let er : Bool × List Char :=
          match r3 with
          | '+' :: r => (false, r)
          | '-' :: r => (true, r)
          | r => (false, r)
        let eneg := er.1
        let r4 := er.2
        if r4 ≠ [] ∧ r4.all (·.isDigit) then
          some (if eneg then mkRat mnum (10 ^ fp.length * 10 ^ digitsToNat r4)
                else mkRat (mnum * 10 ^ digitsToNat r4) (10 ^ fp.length))
        else none
      else none

/-! ## Row validation: `parse_csv_row` -/

/-- A validated city row, as produced by `parse_csv_row` (the dict built
at the end of the function). -/
structure CityParsed where
  id : Int
  city : String
  city_ascii : String
  lat : ℚ
  lng : ℚ
  country : String
  iso2 : Option String
  iso3 : Option String
  admin_name : Option String
  capital : Option String
  population : Option Int
deriving DecidableEq, Repr

/-- Result of `parse_csv_row`: either a dict carrying an `"error"` key or
the validated record (the source never returns `None` on these paths). -/
inductive ParseResult where
  | error (msg : String)
  | ok (c : CityParsed)
deriving DecidableEq, Repr

/-- Shallow embedding of `parse_csv_row(row, line_number)`. -/
def parse_csv_row (row : List String) (line_number : Nat) : ParseResult :=
  if row.length ≠ 11 then
    .error ("Linha " ++ toString line_number ++ ": Esperado 11 colunas, encontrado "
            ++ toString row.length)
  else
    let clean_row := row.map cleanField
    match pyInt (clean_row.getD 10 "") with
    | none =>
        .error ("Linha " ++ toString line_number ++ ": ID inválido: " ++ clean_row.getD 10 "")
    | some city_id =>
    match pyFloat (clean_row.getD 2 "") with
    | none =>
        .error ("Linha " ++ toString line_number ++ ": Latitude inválida: " ++ clean_row.getD 2 "")
    | some lat =>
    match pyFloat (clean_row.getD 3 "") with
    | none =>
        .error ("Linha " ++ toString line_number ++ ": Longitude inválida: " ++ clean_row.getD 3 "")
    | some lng =>
      let c9 := clean_row.getD 9 ""
      let population : Option Int :=
        if c9 ≠ "" ∧ pyStrip c9 ≠ "" then pyInt c9 else none
      .ok
        { id := city_id
          city := clean_row.getD 0 ""
          city_ascii := clean_row.getD 1 ""
          lat := lat
          lng := lng
          country := clean_row.getD 4 ""
          iso2 := if clean_row.getD 5 "" ≠ "" then some (pyUpper (clean_row.getD 5 "")) else none
          iso3 := if clean_row.getD 6 "" ≠ "" then some (pyUpper (clean_row.getD 6 "")) else none
          admin_name := if clean_row.getD 7 "" ≠ "" then some (clean_row.getD 7 "") else none
          capital := if clean_row.getD 8 "" ≠ "" then some (clean_row.getD 8 "") else none
          population := population }

/-- Whether (and how) a row parses, stripped of the line number: the
outcome of `parse_csv_row` does not depend on `line_number` except inside
error text. -/
def parseOk (row : List String) : Option CityParsed :=
  match parse_csv_row row 0 with
  | .error _ => none
  | .ok c => some c

/-! ## The relational store and `upsert_cities_batch` -/

/-- A stored row of the `cities` table (model `app/models/city.py`).
Latitude and longitude are SQL floats, modelled as reals. -/
structure City where
  id : Int
  city : String
  city_ascii : String
  lat : ℝ
  lng : ℝ
  country : String
  iso2 : Option String
  iso3 : Option String
  admin_name : Option String
  capital : Option String
  population : Option Int

/-- The list of primary keys present in a store. -/
def storeIds (store : List City) : List Int :=
  store.map City.id

/-- The `values.append({...})` record built by `upsert_cities_batch`:
defensive truncation of string fields to their declared maxima, floats
written as-is. -/
def toCityRecord (c : CityParsed) : City :=
  { id := c.id
    city := pyTake c.city 255
    city_ascii := pyTake c.city_ascii 255
    lat := (c.lat : ℝ)
    lng := (c.lng : ℝ)
    country := pyTake c.country 255
    iso2 := c.iso2.bind (fun s => if s = "" then none else some (pyTake s 2))
    iso3 := c.iso3.bind (fun s => if s = "" then none else some (pyTake s 3))
    admin_name := c.admin_name.bind (fun s => if s = "" then none else some (pyTake s 255))
    capital := c.capital.bind (fun s => if s = "" then none else some (pyTake s 50))
    population := c.population }

/-- One row of the `INSERT ... ON CONFLICT (id) DO UPDATE` statement: on a
primary-key conflict every non-key column is overwritten by the incoming
value (so the whole row is replaced), otherwise the row is inserted. -/
def upsertOne (store : List City) (v : City) : List City :=
  if v.id ∈ storeIds store then
    store.map (fun r => if r.id = v.id then v else r)
  else
    store ++ [v]

/-- Shallow embedding of `upsert_cities_batch(session, cities)`: returns
the store after the committed write together with the
`(inserted, updated)` counts, which are classified against the set of IDs
that existed *before* the write. -/
def upsert_cities_batch (store : List City) (cities : List CityParsed) :
    List City × Nat × Nat :=
  if cities.isEmpty then (store, 0, 0)
  else
    let city_ids := cities.map CityParsed.id
    let existing_ids := (storeIds store).filter (fun i => city_ids.contains i)
    let values := cities.map toCityRecord
    let store' := values.foldl upsertOne store
    let inserted := (cities.filter (fun c => !(existing_ids.contains c.id))).length
    let updated := (cities.filter (fun c => existing_ids.contains c.id)).length
    (store', inserted, updated)

/-! ## The import pipeline: `import_cities` -/

/-- Outcome of the batch write as seen by the `except` blocks around
`upsert_cities_batch`: `none` — the commit succeeds; `some msg` — the
write raises an exception whose text is `msg` (the transaction is rolled
back, leaving the store unchanged). -/
def BatchOracle : Type :=
  List CityParsed → List City → Option String

/-- An HTTP error response (`HTTPException(status_code, detail)`). -/
structure HTTPError where
  status : Nat
  detail : String
deriving DecidableEq, Repr

/-- The success payload returned by `import_cities`. -/
structure ImportResult where
  inserted : Nat
  updated : Nat
  skipped : Nat
  total_processed : Nat
  errors : List String
  message : String
deriving DecidableEq, Repr

/-- Mutable state of the import loop. -/
structure ImportState where
  store : List City
  inserted : Nat
  updated : Nat
  skipped : Nat
  errors : List String
  batch : List CityParsed
  line_number : Nat

/-- `if len(errors) < MAX_ERROR_EXAMPLES: errors.append(e)`. -/
def addError (errors : List String) (e : String) : List String :=
  if errors.length < MAX_ERROR_EXAMPLES then errors ++ [e] else errors

/-- Flush the current batch: on oracle failure, roll back (store kept),
count the whole batch as skipped and record one error example; on
success, apply the upsert and add its counts. -/
def flushBatch (oracle : BatchOracle) (errMsg : String → String)
    (st : ImportState) : ImportState :=
  match oracle st.batch st.store with
  | some e =>
      { st with errors := addError st.errors (errMsg e),
                skipped := st.skipped + st.batch.length,
                batch := [] }
  | none =>
      let r := upsert_cities_batch st.store st.batch
      { st with store := r.1,
                inserted := st.inserted + r.2.1,
                updated := st.updated + r.2.2,
                batch := [] }

/-- The body of `for row in csv_reader`: bump the line counter, parse the
row, count a parse error as skipped (recording up to 10 examples), append
a valid record to the batch and flush when the batch reaches
`BATCH_SIZE`. -/
def processRow (oracle : BatchOracle) (st : ImportState) (row : List String) :
    ImportState :=
  let line := st.line_number + 1
  match parse_csv_row row line with
  | .error e =>
      { st with line_number := line,
                skipped := st.skipped + 1,
                errors := addError st.errors e }
  | .ok c =>
      let st' := { st with line_number := line, batch := st.batch ++ [c] }
      if BATCH_SIZE ≤ st'.batch.length then
        flushBatch oracle
          (fun e => "Erro ao processar batch na linha " ++ toString line ++ ": " ++ e) st'
      else st'

/-- `if current_batch:` after the loop — flush the final partial batch. -/
def finalFlush (oracle : BatchOracle) (st : ImportState) : ImportState :=
  if st.batch.isEmpty then st
  else flushBatch oracle (fun e => "Erro ao processar último batch: " ++ e) st

/-- The whole row-processing loop of the import handler: fold
`processRow` over the data rows starting from fresh counters, then flush
the final partial batch. -/
def runImport (oracle : BatchOracle) (store : List City)
    (dataRows : List (List String)) : ImportState :=
  finalFlush oracle (dataRows.foldl (processRow oracle) ⟨store, 0, 0, 0, [], [], 0⟩)

/-- The success payload assembled from the final loop state. -/
def resultOfState (st : ImportState) : ImportResult :=
  { inserted := st.inserted
    updated := st.updated
    skipped := st.skipped
    total_processed := st.line_number
    errors := st.errors
    message := "Processado: " ++ toString st.inserted ++ " inseridas, "
               ++ toString st.updated ++ " atualizadas, "
               ++ toString st.skipped ++ " ignoradas" }

/-- Shallow embedding of the `POST /cities/import` handler.  `rows` is
the token stream the `csv.reader` yields on the decoded upload (empty
upload → no rows; blank first line → empty header row).  Returns the HTTP
outcome together with the store left behind by the request.

Note the source raises `HTTPException(400, "CSV vazio ou sem header")`
*inside* the `try:` block whose `except Exception` re-raises every
exception as a 500 `"Erro ao processar arquivo: ..."`; since
`HTTPException` is an `Exception`, the empty/missing-header guard is
actually surfaced as a 500 server error whose detail embeds
`str(HTTPException)` = `"400: CSV vazio ou sem header"`. -/
def import_cities (filename : String) (rows : List (List String))
    (oracle : BatchOracle) (store : List City) :
    Except HTTPError ImportResult × List City :=
  if !(pyEndsWith filename ".csv") then
    (.error ⟨400, "Arquivo deve ser CSV"⟩, store)
  else
    match rows with
    | [] =>
        (.error ⟨500, "Erro ao processar arquivo: 400: CSV vazio ou sem header"⟩, store)
    | header :: dataRows =>
      if header.isEmpty then
        (.error ⟨500, "Erro ao processar arquivo: 400: CSV vazio ou sem header"⟩, store)
      else
        let st := runImport oracle store dataRows
        (.ok (resultOfState st), st.store)

/-! ## Haversine distance and the radius search -/

/-- `EARTH_RADIUS_KM = 6371.0` from the source. -/
noncomputable def EARTH_RADIUS_KM : ℝ := 6371

/-- `math.radians(x)`: degrees to radians. -/
noncomputable def radians (x : ℝ) : ℝ :=
  x * (Real.pi / 180)

/-- Shallow embedding of `haversine_distance(lat1, lng1, lat2, lng2)`,
step for step: radian conversion, `a`, `c = 2*asin(sqrt(a))`, `R*c`. -/
noncomputable def haversine_distance (lat1 lng1 lat2 lng2 : ℝ) : ℝ :=
  let lat1_rad := radians lat1
  let lng1_rad := radians lng1
  let lat2_rad := radians lat2
  let lng2_rad := radians lng2
  let dlat := lat2_rad - lat1_rad
  let dlng := lng2_rad - lng1_rad
  let a := Real.sin (dlat / 2) ^ 2
           + Real.cos lat1_rad * Real.cos lat2_rad * Real.sin (dlng / 2) ^ 2
  let c := 2 * Real.arcsin (Real.sqrt a)
  EARTH_RADIUS_KM * c

/-- One candidate test of the radius search's inner loop
(`for city in all_cities` body): skip the reference itself, keep a city
within the radius unless its ID was already collected. -/
noncomputable def radiusStep (radius_km : ℝ) (ref : City) (acc : List City)
    (city : City) : List City :=
  if city.id = ref.id then acc
  else if haversine_distance ref.lat ref.lng city.lat city.lng ≤ radius_km then
    if (storeIds acc).contains city.id then acc else acc ++ [city]
  else acc

/-- One reference pass of the radius search (`for ref_city in
reference_cities` body): test every candidate against this reference. -/
noncomputable def radiusAccum (radius_km : ℝ) (all_cities : List City)
    (acc : List City) (ref : City) : List City :=
  all_cities.foldl (radiusStep radius_km ref) acc

/-- Failure modes of the radius endpoint: the generic
`"No reference cities found with the provided IDs"` 404 when no reference
row resolves, and the `"Some city IDs were not found: [...]"` 404
carrying the sorted missing IDs when only some resolve. -/
inductive RadiusError where
  | noneFound
  | someMissing (missing : List Int)
deriving DecidableEq, Repr

/-- The `{count, data}` payload of the radius endpoint. -/
structure CitiesResponse where
  count : Nat
  data : List City

/-- Shallow embedding of `GET /cities/radius`
(`get_cities_within_radius(city_ids, radius_km)` over store `store`).
The double loop filling the `cities_within_radius` dict (keyed by ID,
insertion-ordered) is modelled by nested folds accumulating the dict's
value list. -/
noncomputable def get_cities_within_radius (store : List City)
    (city_ids : List Int) (radius_km : ℝ) : Except RadiusError CitiesResponse :=
  let reference_cities := store.filter (fun c => city_ids.contains c.id)
  if reference_cities.isEmpty then
    .error .noneFound
  else if reference_cities.length < city_ids.length then
    let found_ids := storeIds reference_cities
    let missing_ids :=
      List.insertionSort (fun a b => a ≤ b)
        (city_ids.dedup.filter (fun i => !(found_ids.contains i)))
    .error (.someMissing missing_ids)
  else
    let all_cities := store
    let result := reference_cities.foldl (radiusAccum radius_km all_cities) []
    .ok ⟨result.length, result⟩

/-! ## Definitions taken from the spec's wording, for refinement claims -/

/-- The haversine distance exactly as the spec words it:
`a = sin²(Δlat/2) + cos(lat1)·cos(lat2)·sin²(Δlng/2)`,
`distance = 2·R·asin(√a)`, both points converted from degrees to radians,
`R = 6371.0` km. -/
noncomputable def haversineSpecFormula (lat1 lng1 lat2 lng2 : ℝ) : ℝ :=
  let p1 := radians lat1
  let q1 := radians lng1
  let p2 := radians lat2
  let q2 := radians lng2
  let a := Real.sin ((p2 - p1) / 2) ^ 2
           + Real.cos p1 * Real.cos p2 * Real.sin ((q2 - q1) / 2) ^ 2
  2 * EARTH_RADIUS_KM * Real.arcsin (Real.sqrt a)

/-- Modelled from the spec's words "one layer of double-quote characters
removed": remove at most one leading and at most one trailing `"` from
the whitespace-stripped field.  Used only to compare the spec's claimed
cleaning against the source's `strip('"')` (which removes all layers). -/
def stripOneQuoteLayer (s : String) : String :=
  let l := s.toList
  let l1 := if l.head? = some '"' then l.tail else l
  let l2 := if l1.getLast? = some '"' then l1.dropLast else l1
  ⟨l2⟩

/-- Spec-worded field cleaning: strip surrounding whitespace, then one
layer of surrounding double quotes. -/
def cleanFieldOneLayer (s : String) : String :=
  stripOneQuoteLayer (pyStrip s)

/-! # Helper lemmas -/

instance {ε α : Type} [DecidableEq ε] [DecidableEq α] : DecidableEq (Except ε α) :=
  fun x y =>
  match x, y with
  | .ok a, .ok b => if h : a = b then isTrue (by rw [h]) else isFalse (by simp [h])
  | .error a, .error b => if h : a = b then isTrue (by rw [h]) else isFalse (by simp [h])
  | .ok _, .error _ => isFalse (by simp)
  | .error _, .ok _ => isFalse (by simp)

lemma haversine_distance_self_eq_zero (lat lng : ℝ) :
    haversine_distance lat lng lat lng = 0 := by
  simp [haversine_distance]

lemma dropTrailingWhile_append (p : Char → Bool) (l : List Char) :
    dropTrailingWhile p l ++ (l.reverse.takeWhile p).reverse = l := by
  unfold dropTrailingWhile
  rw [← List.reverse_append, List.takeWhile_append_dropWhile, List.reverse_reverse]

lemma head?_dropWhile_false (p : Char → Bool) (l : List Char) (c : Char)
    (h : (l.dropWhile p).head? = some c) : p c = false := by
  induction l with
  | nil => simp at h
  | cons a l ih =>
    rw [List.dropWhile_cons] at h
    by_cases hp : p a
    · rw [if_pos hp] at h
      exact ih h
    · rw [if_neg hp] at h
      simp only [List.head?_cons, Option.some.injEq] at h
      simpa [← h] using hp

lemma getLast?_dropTrailingWhile_false (p : Char → Bool) (l : List Char) (c : Char)
    (h : (dropTrailingWhile p l).getLast? = some c) : p c = false := by
  unfold dropTrailingWhile at h
  rw [List.getLast?_reverse] at h
  exact head?_dropWhile_false p l.reverse c h

lemma head?_dropTrailingWhile (p : Char → Bool) (l : List Char) (c : Char)
    (h : (dropTrailingWhile p l).head? = some c) : l.head? = some c := by
  have happ := dropTrailingWhile_append p l
  rw [← happ, List.head?_append, h]
  rfl

lemma cleanField_toList (s : String) :
    (cleanField s).toList
      = dropTrailingWhile (· == '"') (((pyStrip s).toList).dropWhile (· == '"')) :=
  rfl

/-- The result of `cleanField` never starts with a double quote. -/
lemma cleanField_head?_ne_quote (s : String) (c : Char)
    (h : (cleanField s).toList.head? = some c) : c ≠ '"' := by
  rw [cleanField_toList] at h
  have h2 := head?_dropTrailingWhile _ _ _ h
  have h3 := head?_dropWhile_false _ _ _ h2
  simpa using h3

/-- The result of `cleanField` never ends with a double quote. -/
lemma cleanField_getLast?_ne_quote (s : String) (c : Char)
    (h : (cleanField s).toList.getLast? = some c) : c ≠ '"' := by
  rw [cleanField_toList] at h
  have h3 := getLast?_dropTrailingWhile_false _ _ _ h
  simpa using h3

/-- `cleanField` only removes characters from the two ends of the
whitespace-stripped field. -/
lemma cleanField_decomposition (s : String) :
    ∃ t1 t2, (pyStrip s).toList = t1 ++ (cleanField s).toList ++ t2 := by
  rw [cleanField_toList]
  refine ⟨(pyStrip s).toList.takeWhile (· == '"'),
    ((((pyStrip s).toList.dropWhile (· == '"')).reverse.takeWhile (· == '"'))).reverse, ?_⟩
  rw [List.append_assoc, dropTrailingWhile_append, List.takeWhile_append_dropWhile]

/-- `pyStrip` only removes whitespace characters from the two ends. -/
lemma pyStrip_decomposition (s : String) :
    ∃ u1 u2, s.toList = u1 ++ (pyStrip s).toList ++ u2
      ∧ u1.all pyWhitespace ∧ u2.all pyWhitespace := by
  refine ⟨s.toList.takeWhile pyWhitespace,
    ((s.toList.dropWhile pyWhitespace).reverse.takeWhile pyWhitespace).reverse, ?_, ?_, ?_⟩
  · show s.toList = _ ++ dropTrailingWhile pyWhitespace (s.toList.dropWhile pyWhitespace) ++ _
    rw [List.append_assoc, dropTrailingWhile_append, List.takeWhile_append_dropWhile]
  · exact List.all_eq_true.mpr fun c hc => List.mem_takeWhile_imp hc
  · exact List.all_eq_true.mpr fun c hc =>
      List.mem_takeWhile_imp (List.mem_reverse.mp hc)

lemma length_filter_not_add_length_filter {α : Type} (l : List α) (p : α → Bool) :
    (l.filter (fun a => !(p a))).length + (l.filter p).length = l.length := by
  induction l with
  | nil => rfl
  | cons a l ih =>
    cases h : p a <;> simp [List.filter_cons, h] <;> omega

/-- The insert/update classification of a batch partitions it. -/
lemma upsert_cities_batch_counts (store : List City) (cities : List CityParsed) :
    (upsert_cities_batch store cities).2.1 + (upsert_cities_batch store cities).2.2
      = cities.length := by
  unfold upsert_cities_batch
  by_cases h : cities.isEmpty
  · rw [if_pos h]
    simp [List.isEmpty_iff.mp h]
  · rw [if_neg h]
    exact length_filter_not_add_length_filter cities _

/-- Loop invariant: every processed line is accounted for in exactly one
of the counters or the pending batch. -/
def CountInv (st : ImportState) : Prop :=
  st.inserted + st.updated + st.skipped + st.batch.length = st.line_number

lemma flushBatch_countInv (oracle : BatchOracle) (errMsg : String → String)
    (st : ImportState) (h : CountInv st) : CountInv (flushBatch oracle errMsg st) := by
  unfold CountInv flushBatch at *
  cases oracle st.batch st.store with
  | some e => simp only [List.length_nil]; omega
  | none =>
    have hc := upsert_cities_batch_counts st.store st.batch
    simp only [List.length_nil]
    omega

lemma processRow_countInv (oracle : BatchOracle) (st : ImportState) (row : List String)
    (h : CountInv st) : CountInv (processRow oracle st row) := by
  unfold CountInv at h
  unfold processRow
  dsimp only
  split
  · unfold CountInv
    dsimp only
    omega
  · split
    · apply flushBatch_countInv
      unfold CountInv
      dsimp only
      simp only [List.length_append, List.length_cons, List.length_nil]
      omega
    · unfold CountInv
      dsimp only
      simp only [List.length_append, List.length_cons, List.length_nil]
      omega

lemma foldl_processRow_countInv (oracle : BatchOracle) (rows : List (List String))
    (st : ImportState) (h : CountInv st) :
    CountInv (rows.foldl (processRow oracle) st) := by
  induction rows generalizing st with
  | nil => exact h
  | cons r rows ih => exact ih _ (processRow_countInv oracle st r h)

lemma finalFlush_countInv (oracle : BatchOracle) (st : ImportState) (h : CountInv st) :
    CountInv (finalFlush oracle st) := by
  unfold finalFlush
  split
  · exact h
  · exact flushBatch_countInv oracle _ st h

lemma finalFlush_batch_nil (oracle : BatchOracle) (st : ImportState) :
    (finalFlush oracle st).batch = [] := by
  unfold finalFlush
  split
  · exact List.isEmpty_iff.mp (by assumption)
  · unfold flushBatch
    cases oracle st.batch st.store <;> rfl

lemma contains_iff_mem (l : List Int) (a : Int) : l.contains a = true ↔ a ∈ l :=
  List.elem_iff

/-- The outcome of `parse_csv_row` does not depend on the line number
(which only decorates error text). -/
lemma parse_csv_row_ok_iff_parseOk (row : List String) (n : Nat) (c : CityParsed) :
    parse_csv_row row n = .ok c ↔ parseOk row = some c := by
  by_cases hl : row.length = 11
  · simp only [parseOk, parse_csv_row, hl, ne_eq, not_true_eq_false, if_false]
    rcases pyInt ((row.map cleanField).getD 10 "") with _ | idv
    · simp
    rcases pyFloat ((row.map cleanField).getD 2 "") with _ | latv
    · simp
    rcases pyFloat ((row.map cleanField).getD 3 "") with _ | lngv
    · simp
    · simp
  · simp [parseOk, parse_csv_row, hl]

lemma storeIds_upsertOne (store : List City) (v : City) :
    storeIds (upsertOne store v)
      = if v.id ∈ storeIds store then storeIds store else storeIds store ++ [v.id] := by
  unfold upsertOne
  split
  · unfold storeIds
    rw [List.map_map]
    apply List.map_congr_left
    intro r _
    by_cases hrv : r.id = v.id
    · simp [Function.comp, hrv]
    · simp [Function.comp, hrv]
  · unfold storeIds
    simp

lemma mem_storeIds_upsertOne_of_mem (store : List City) (v : City) (a : Int)
    (h : a ∈ storeIds store) : a ∈ storeIds (upsertOne store v) := by
  rw [storeIds_upsertOne]
  split
  · exact h
  · exact List.mem_append_left _ h

lemma id_mem_storeIds_upsertOne (store : List City) (v : City) :
    v.id ∈ storeIds (upsertOne store v) := by
  rw [storeIds_upsertOne]
  split
  · assumption
  · simp

lemma mem_storeIds_foldl_upsertOne_of_mem (vs : List City) (store : List City) (a : Int)
    (h : a ∈ storeIds store) : a ∈ storeIds (vs.foldl upsertOne store) := by
  induction vs generalizing store with
  | nil => exact h
  | cons v vs ih => exact ih _ (mem_storeIds_upsertOne_of_mem store v a h)

lemma mem_storeIds_foldl_upsertOne (vs : List City) (v : City) (hv : v ∈ vs) :
    ∀ store : List City, v.id ∈ storeIds (vs.foldl upsertOne store) := by
  induction vs with
  | nil => cases hv
  | cons w vs ih =>
    intro store
    rcases List.mem_cons.mp hv with rfl | hv'
    · exact mem_storeIds_foldl_upsertOne_of_mem vs _ _ (id_mem_storeIds_upsertOne store v)
    · exact ih hv' _

lemma storeIds_foldl_upsertOne_of_all_mem (vs : List City) (store : List City)
    (h : ∀ v ∈ vs, v.id ∈ storeIds store) :
    storeIds (vs.foldl upsertOne store) = storeIds store := by
  induction vs generalizing store with
  | nil => rfl
  | cons v vs ih =>
    have h1 : v.id ∈ storeIds store := h v (List.mem_cons_self v vs)
    have e : storeIds (upsertOne store v) = storeIds store := by
      unfold upsertOne
      rw [if_pos h1]
      unfold storeIds
      rw [List.map_map]
      apply List.map_congr_left
      intro r _
      by_cases hrv : r.id = v.id
      · simp [Function.comp, hrv]
      · simp [Function.comp, hrv]
    rw [List.foldl_cons, ih _ (fun w hw => e ▸ h w (List.mem_cons_of_mem v hw)), e]

/-- When every row of the batch already exists in the store, the upsert
reports 0 inserted, `|batch|` updated, and leaves the stored ID list
unchanged. -/
lemma upsert_cities_batch_all_existing (store : List City) (cities : List CityParsed)
    (h : ∀ c ∈ cities, c.id ∈ storeIds store) :
    (upsert_cities_batch store cities).2.1 = 0 ∧
    (upsert_cities_batch store cities).2.2 = cities.length ∧
    storeIds (upsert_cities_batch store cities).1 = storeIds store := by
  unfold upsert_cities_batch
  by_cases he : cities.isEmpty
  · rw [if_pos he, List.isEmpty_iff.mp he]
    exact ⟨rfl, rfl, rfl⟩
  · rw [if_neg he]
    dsimp only
    have hex : ∀ c ∈ cities,
        ((storeIds store).filter
          (fun i => (cities.map CityParsed.id).contains i)).contains c.id = true := by
      intro c hc
      apply (contains_iff_mem _ _).mpr
      exact List.mem_filter.mpr ⟨h c hc,
        (contains_iff_mem _ _).mpr (List.mem_map_of_mem CityParsed.id hc)⟩
    refine ⟨?_, ?_, ?_⟩
    · rw [List.length_eq_zero]
      rw [List.filter_eq_nil_iff]
      intro c hc
      rw [hex c hc]
      simp
    · rw [List.filter_eq_self.mpr hex]
    · apply storeIds_foldl_upsertOne_of_all_mem
      intro v hv
      obtain ⟨c, hc, rfl⟩ := List.mem_map.mp hv
      exact h c hc

/-- An ID is accounted for by the loop state: either already stored or
pending in the current batch. -/
def PendingId (st : ImportState) (a : Int) : Prop :=
  a ∈ storeIds st.store ∨ ∃ c ∈ st.batch, c.id = a

lemma flushBatch_pendingId (oracle : BatchOracle) (errMsg : String → String)
    (st : ImportState) (a : Int) (h_o : oracle st.batch st.store = none)
    (h : PendingId st a) : a ∈ storeIds (flushBatch oracle errMsg st).store := by
  unfold flushBatch
  rw [h_o]
  dsimp only
  unfold upsert_cities_batch
  by_cases he : st.batch.isEmpty
  · rw [if_pos he]
    rcases h with h | ⟨c, hc, rfl⟩
    · exact h
    · rw [List.isEmpty_iff.mp he] at hc
      cases hc
  · rw [if_neg he]
    dsimp only
    rcases h with h | ⟨c, hc, rfl⟩
    · exact mem_storeIds_foldl_upsertOne_of_mem _ _ _ h
    · exact mem_storeIds_foldl_upsertOne _ (toCityRecord c)
        (List.mem_map_of_mem toCityRecord hc) _

lemma flushBatch_pendingId_pres (oracle : BatchOracle) (errMsg : String → String)
    (st : ImportState) (a : Int) (h_o : oracle st.batch st.store = none)
    (h : PendingId st a) : PendingId (flushBatch oracle errMsg st) a :=
  Or.inl (flushBatch_pendingId oracle errMsg st a h_o h)

lemma processRow_pendingId (oracle : BatchOracle) (st : ImportState)
    (row : List String) (a : Int) (h_o : ∀ b s, oracle b s = none)
    (h : PendingId st a) : PendingId (processRow oracle st row) a := by
  unfold processRow
  dsimp only
  split
  · rcases h with h | ⟨c, hc, rfl⟩
    · exact Or.inl h
    · exact Or.inr ⟨c, hc, rfl⟩
  · rename_i c0 heq0
    have h' : PendingId ⟨st.store, st.inserted, st.updated, st.skipped, st.errors,
        st.batch ++ [c0], st.line_number + 1⟩ a := by
      rcases h with h | ⟨c, hc, rfl⟩
      · exact Or.inl h
      · exact Or.inr ⟨c, List.mem_append_left _ hc, rfl⟩
    split
    · exact flushBatch_pendingId_pres oracle _ _ a (h_o _ _) h'
    · exact h'

lemma foldl_processRow_pendingId (oracle : BatchOracle)
    (h_o : ∀ b s, oracle b s = none) (rows : List (List String))
    (st : ImportState) (a : Int) (h : PendingId st a) :
    PendingId (rows.foldl (processRow oracle) st) a := by
  induction rows generalizing st with
  | nil => exact h
  | cons r rows ih => exact ih _ (processRow_pendingId oracle st r a h_o h)

lemma processRow_pendingId_new (oracle : BatchOracle) (st : ImportState)
    (row : List String) (c : CityParsed) (h_o : ∀ b s, oracle b s = none)
    (hc : parseOk row = some c) :
    PendingId (processRow oracle st row) c.id := by
  have heq := (parse_csv_row_ok_iff_parseOk row (st.line_number + 1) c).mpr hc
  unfold processRow
  dsimp only
  rw [heq]
  dsimp only
  have h' : PendingId ⟨st.store, st.inserted, st.updated, st.skipped, st.errors,
      st.batch ++ [c], st.line_number + 1⟩ c.id :=
    Or.inr ⟨c, List.mem_append_right _ (List.mem_singleton_self c), rfl⟩
  split
  · exact flushBatch_pendingId_pres oracle _ _ _ (h_o _ _) h'
  · exact h'

lemma foldl_processRow_pendingId_new (oracle : BatchOracle)
    (h_o : ∀ b s, oracle b s = none) (rows : List (List String))
    (row : List String) (c : CityParsed) (hrow : row ∈ rows)
    (hc : parseOk row = some c) :
    ∀ st, PendingId (rows.foldl (processRow oracle) st) c.id := by
  induction rows with
  | nil => cases hrow
  | cons r rows ih =>
    intro st
    rcases List.mem_cons.mp hrow with rfl | hr
    · exact foldl_processRow_pendingId oracle h_o rows _ _
        (processRow_pendingId_new oracle st row c h_o hc)
    · exact ih hr _

lemma finalFlush_pendingId (oracle : BatchOracle) (st : ImportState) (a : Int)
    (h_o : ∀ b s, oracle b s = none) (h : PendingId st a) :
    a ∈ storeIds (finalFlush oracle st).store := by
  unfold finalFlush
  split
  · rename_i hbe
    rcases h with h | ⟨c, hc, rfl⟩
    · exact h
    · rw [List.isEmpty_iff.mp hbe] at hc
      cases hc
  · exact flushBatch_pendingId oracle _ st a (h_o _ _) h

/-- After a fully successful import run, the ID of every row that parses
is present in the resulting store. -/
lemma runImport_covers_ids (oracle : BatchOracle) (h_o : ∀ b s, oracle b s = none)
    (store : List City) (rows : List (List String)) (row : List String)
    (c : CityParsed) (hrow : row ∈ rows) (hc : parseOk row = some c) :
    c.id ∈ storeIds (runImport oracle store rows).store := by
  unfold runImport
  exact finalFlush_pendingId oracle _ _ h_o
    (foldl_processRow_pendingId_new oracle h_o rows row c hrow hc _)

/-- Invariant of the second run over an unchanged file: the store's ID
list never changes, nothing is inserted or skipped, and every processed
line is counted as updated or still pending in the batch. -/
def SecondRunInv (ids1 : List Int) (st : ImportState) : Prop :=
  storeIds st.store = ids1 ∧ st.inserted = 0 ∧ st.skipped = 0 ∧
  st.updated + st.batch.length = st.line_number ∧ ∀ c ∈ st.batch, c.id ∈ ids1

lemma flushBatch_secondRunInv (oracle : BatchOracle) (errMsg : String → String)
    (st : ImportState) (ids1 : List Int) (h_o : oracle st.batch st.store = none)
    (h : SecondRunInv ids1 st) : SecondRunInv ids1 (flushBatch oracle errMsg st) := by
  obtain ⟨hs, hi, hk, hu, hb⟩ := h
  unfold flushBatch
  rw [h_o]
  dsimp only
  have hall : ∀ c ∈ st.batch, c.id ∈ storeIds st.store := by
    intro c hc
    rw [hs]
    exact hb c hc
  obtain ⟨e1, e2, e3⟩ := upsert_cities_batch_all_existing st.store st.batch hall
  refine ⟨?_, ?_, ?_, ?_, ?_⟩
  · rw [e3]
    exact hs
  · rw [e1, hi]
  · exact hk
  · simp only [List.length_nil]
    rw [e2]
    omega
  · intro c hc
    cases hc

lemma processRow_secondRunInv (oracle : BatchOracle) (st : ImportState)
    (row : List String) (ids1 : List Int) (c : CityParsed)
    (h_o : ∀ b s, oracle b s = none)
    (hrow : parseOk row = some c) (hcid : c.id ∈ ids1)
    (h : SecondRunInv ids1 st) : SecondRunInv ids1 (processRow oracle st row) := by
  have heq := (parse_csv_row_ok_iff_parseOk row (st.line_number + 1) c).mpr hrow
  unfold processRow
  dsimp only
  rw [heq]
  dsimp only
  obtain ⟨hs, hi, hk, hu, hb⟩ := h
  have h' : SecondRunInv ids1 ⟨st.store, st.inserted, st.updated, st.skipped, st.errors,
      st.batch ++ [c], st.line_number + 1⟩ := by
    refine ⟨hs, hi, hk, ?_, ?_⟩
    · simp only [List.length_append, List.length_cons, List.length_nil]
      omega
    · intro d hd
      rcases List.mem_append.mp hd with hd | hd
      · exact hb d hd
      · rw [List.mem_singleton.mp hd]
        exact hcid
  split
  · exact flushBatch_secondRunInv oracle _ _ ids1 (h_o _ _) h'
  · exact h'

lemma foldl_processRow_secondRunInv (oracle : BatchOracle) (ids1 : List Int)
    (h_o : ∀ b s, oracle b s = none) (rows : List (List String))
    (hrows : ∀ row ∈ rows, ∃ c, parseOk row = some c ∧ c.id ∈ ids1) :
    ∀ st, SecondRunInv ids1 st →
      SecondRunInv ids1 (rows.foldl (processRow oracle) st) := by
  induction rows with
  | nil => exact fun st h => h
  | cons r rows ih =>
    intro st h
    obtain ⟨c, hc, hcid⟩ := hrows r (List.mem_cons_self r rows)
    exact ih (fun row hr => hrows row (List.mem_cons_of_mem r hr)) _
      (processRow_secondRunInv oracle st r ids1 c h_o hc hcid h)

lemma finalFlush_secondRunInv (oracle : BatchOracle) (st : ImportState)
    (ids1 : List Int) (h_o : ∀ b s, oracle b s = none)
    (h : SecondRunInv ids1 st) : SecondRunInv ids1 (finalFlush oracle st) := by
  unfold finalFlush
  split
  · exact h
  · exact flushBatch_secondRunInv oracle _ st ids1 (h_o _ _) h

lemma flushBatch_line (oracle : BatchOracle) (errMsg : String → String)
    (st : ImportState) : (flushBatch oracle errMsg st).line_number = st.line_number := by
  unfold flushBatch
  cases oracle st.batch st.store <;> rfl

lemma processRow_line (oracle : BatchOracle) (st : ImportState) (row : List String) :
    (processRow oracle st row).line_number = st.line_number + 1 := by
  unfold processRow
  dsimp only
  split
  · rfl
  · split
    · rw [flushBatch_line]
    · rfl

lemma foldl_processRow_line (oracle : BatchOracle) (rows : List (List String)) :
    ∀ st : ImportState,
      (rows.foldl (processRow oracle) st).line_number = st.line_number + rows.length := by
  induction rows with
  | nil => intro st; rfl
  | cons r rows ih =>
    intro st
    rw [List.foldl_cons, ih, processRow_line]
    simp only [List.length_cons]
    omega

lemma finalFlush_line (oracle : BatchOracle) (st : ImportState) :
    (finalFlush oracle st).line_number = st.line_number := by
  unfold finalFlush
  split
  · rfl
  · exact flushBatch_line oracle _ st

/-- Under the import guards, the handler returns the loop's result and
leaves the loop's final store. -/
lemma import_cities_ok_eq (filename : String) (header : List String)
    (dataRows : List (List String)) (oracle : BatchOracle) (s : List City)
    (hf : pyEndsWith filename ".csv" = true) (hh : header.isEmpty = false) :
    import_cities filename (header :: dataRows) oracle s
      = (.ok (resultOfState (runImport oracle s dataRows)),
         (runImport oracle s dataRows).store) := by
  simp only [import_cities, hf, hh, Bool.not_true, Bool.false_eq_true, if_false]

lemma getD_map_cleanField (l : List String) (i : Nat) :
    (l.map cleanField).getD i "" = cleanField (l.getD i "") := by
  induction l generalizing i with
  | nil => cases i <;> rfl
  | cons a l ih =>
    cases i with
    | zero => rfl
    | succ j => exact ih j

/-- In a store whose ID list has no duplicates, two stored rows with the
same ID are the same row. -/
lemma eq_of_mem_of_same_id (store : List City) (h : (storeIds store).Nodup) :
    ∀ x ∈ store, ∀ y ∈ store, x.id = y.id → x = y := by
  induction store with
  | nil => intro x hx; cases hx
  | cons s ss ih =>
    have h' : s.id ∉ storeIds ss ∧ (storeIds ss).Nodup := List.nodup_cons.mp h
    intro x hx y hy hid
    rcases List.mem_cons.mp hx with rfl | hx' <;> rcases List.mem_cons.mp hy with rfl | hy'
    · rfl
    · exact absurd (hid ▸ List.mem_map_of_mem City.id hy') h'.1
    · exact absurd (hid ▸ List.mem_map_of_mem City.id hx') h'.1
    · exact ih h'.2 x hx' y hy' hid

lemma mem_radiusStep_of_mem (radius : ℝ) (ref : City) (acc : List City)
    (city x : City) (hx : x ∈ acc) : x ∈ radiusStep radius ref acc city := by
  unfold radiusStep
  split_ifs <;> first
    | exact hx
    | exact List.mem_append_left _ hx

lemma mem_radiusStep_cases (radius : ℝ) (ref : City) (acc : List City)
    (city x : City) (hx : x ∈ radiusStep radius ref acc city) :
    x ∈ acc ∨ (x = city ∧ city.id ≠ ref.id
      ∧ haversine_distance ref.lat ref.lng city.lat city.lng ≤ radius) := by
  unfold radiusStep at hx
  split_ifs at hx with hEq hDist hIn
  · exact Or.inl hx
  · exact Or.inl hx
  · rcases List.mem_append.mp hx with hx | hx
    · exact Or.inl hx
    · exact Or.inr ⟨List.mem_singleton.mp hx, hEq, hDist⟩
  · exact Or.inl hx

lemma radiusStep_adds (radius : ℝ) (store : List City)
    (h1 : (storeIds store).Nodup) (ref : City) (acc : List City)
    (hsub : ∀ y ∈ acc, y ∈ store) (city : City) (hcity : city ∈ store)
    (hne : city.id ≠ ref.id)
    (hdist : haversine_distance ref.lat ref.lng city.lat city.lng ≤ radius) :
    city ∈ radiusStep radius ref acc city := by
  unfold radiusStep
  rw [if_neg hne, if_pos hdist]
  split
  · rename_i hIn
    obtain ⟨y, hy, hyid⟩ := List.mem_map.mp ((contains_iff_mem _ _).mp hIn)
    exact (eq_of_mem_of_same_id store h1 y (hsub y hy) city hcity hyid) ▸ hy
  · exact List.mem_append_right _ (List.mem_singleton_self city)

lemma radiusStep_sub (radius : ℝ) (ref : City) (acc : List City) (city : City)
    (S : List City) (hsub : ∀ y ∈ acc, y ∈ S) (hcity : city ∈ S) :
    ∀ y ∈ radiusStep radius ref acc city, y ∈ S := by
  intro y hy
  rcases mem_radiusStep_cases radius ref acc city y hy with hy | ⟨rfl, -, -⟩
  · exact hsub y hy
  · exact hcity

lemma radiusStep_nodupIds (radius : ℝ) (ref : City) (acc : List City) (city : City)
    (h : (storeIds acc).Nodup) : (storeIds (radiusStep radius ref acc city)).Nodup := by
  unfold radiusStep
  split_ifs with hEq hDist hIn
  · exact h
  · exact h
  · unfold storeIds
    rw [List.map_append]
    apply List.Nodup.append h (List.nodup_singleton city.id)
    intro a ha hb
    rw [List.mem_singleton.mp hb] at ha
    exact absurd ((contains_iff_mem _ _).mpr ha) (by simpa using hIn)
  · exact h

lemma mem_inner_fold (radius : ℝ) (store : List City) (h1 : (storeIds store).Nodup)
    (ref : City) (cs : List City) (hcs : ∀ y ∈ cs, y ∈ store) :
    ∀ acc, (∀ y ∈ acc, y ∈ store) → (storeIds acc).Nodup →
    ∀ x, x ∈ cs.foldl (radiusStep radius ref) acc ↔
      x ∈ acc ∨ (x ∈ cs ∧ x.id ≠ ref.id
        ∧ haversine_distance ref.lat ref.lng x.lat x.lng ≤ radius) := by
  induction cs with
  | nil => simp
  | cons city cs ih =>
    intro acc hsub hnd x
    rw [List.foldl_cons]
    have hcity : city ∈ store := hcs city (List.mem_cons_self city cs)
    have hcs' : ∀ y ∈ cs, y ∈ store := fun y hy => hcs y (List.mem_cons_of_mem city hy)
    have hsub' := radiusStep_sub radius ref acc city store hsub hcity
    have hnd' := radiusStep_nodupIds radius ref acc city hnd
    rw [ih hcs' _ hsub' hnd' x]
    constructor
    · rintro (hx | ⟨hmem, hne, hdist⟩)
      · rcases mem_radiusStep_cases radius ref acc city x hx with hx | ⟨rfl, hne, hdist⟩
        · exact Or.inl hx
        · exact Or.inr ⟨List.mem_cons_self x cs, hne, hdist⟩
      · exact Or.inr ⟨List.mem_cons_of_mem city hmem, hne, hdist⟩
    · rintro (hx | ⟨hmem, hne, hdist⟩)
      · exact Or.inl (mem_radiusStep_of_mem radius ref acc city x hx)
      · rcases List.mem_cons.mp hmem with rfl | hmem'
        · exact Or.inl (radiusStep_adds radius store h1 ref acc hsub x hcity hne hdist)
        · exact Or.inr ⟨hmem', hne, hdist⟩

lemma inner_fold_sub (radius : ℝ) (ref : City) (cs : List City) (S : List City)
    (hcs : ∀ y ∈ cs, y ∈ S) :
    ∀ acc, (∀ y ∈ acc, y ∈ S) → ∀ y ∈ cs.foldl (radiusStep radius ref) acc, y ∈ S := by
  induction cs with
  | nil => exact fun acc h => h
  | cons city cs ih =>
    intro acc hsub
    rw [List.foldl_cons]
    exact ih (fun y hy => hcs y (List.mem_cons_of_mem city hy)) _
      (radiusStep_sub radius ref acc city S hsub (hcs city (List.mem_cons_self city cs)))

lemma inner_fold_nodupIds (radius : ℝ) (ref : City) (cs : List City) :
    ∀ acc, (storeIds acc).Nodup →
      (storeIds (cs.foldl (radiusStep radius ref) acc)).Nodup := by
  induction cs with
  | nil => exact fun acc h => h
  | cons city cs ih =>
    intro acc hnd
    rw [List.foldl_cons]
    exact ih _ (radiusStep_nodupIds radius ref acc city hnd)

lemma mem_outer_fold (radius : ℝ) (store : List City) (h1 : (storeIds store).Nodup)
    (rs : List City) :
    ∀ acc, (∀ y ∈ acc, y ∈ store) → (storeIds acc).Nodup →
    ∀ x, x ∈ rs.foldl (radiusAccum radius store) acc ↔
      x ∈ acc ∨ ∃ ref ∈ rs, x ∈ store ∧ x.id ≠ ref.id
        ∧ haversine_distance ref.lat ref.lng x.lat x.lng ≤ radius := by
  induction rs with
  | nil => simp
  | cons ref rs ih =>
    intro acc hsub hnd x
    rw [List.foldl_cons]
    have hsub' := inner_fold_sub radius ref store store (fun y hy => hy) acc hsub
    have hnd' := inner_fold_nodupIds radius ref store acc hnd
    rw [radiusAccum, ih _ hsub' hnd' x,
      mem_inner_fold radius store h1 ref store (fun y hy => hy) acc hsub hnd x]
    constructor
    · rintro ((hx | ⟨hmem, hne, hdist⟩) | ⟨r, hr, hmem, hne, hdist⟩)
      · exact Or.inl hx
      · exact Or.inr ⟨ref, List.mem_cons_self ref rs, hmem, hne, hdist⟩
      · exact Or.inr ⟨r, List.mem_cons_of_mem ref hr, hmem, hne, hdist⟩
    · rintro (hx | ⟨r, hr, hmem, hne, hdist⟩)
      · exact Or.inl (Or.inl hx)
      · rcases List.mem_cons.mp hr with rfl | hr'
        · exact Or.inl (Or.inr ⟨hmem, hne, hdist⟩)
        · exact Or.inr ⟨r, hr', hmem, hne, hdist⟩

lemma outer_fold_nodupIds (radius : ℝ) (store : List City) (rs : List City) :
    ∀ acc, (storeIds acc).Nodup →
      (storeIds (rs.foldl (radiusAccum radius store) acc)).Nodup := by
  induction rs with
  | nil => exact fun acc h => h
  | cons ref rs ih =>
    intro acc hnd
    rw [List.foldl_cons]
    exact ih _ (inner_fold_nodupIds radius ref store acc hnd)

/-! # Claims -/

/-- C7: For every pair of points given as latitude/longitude in degrees
(any sign), `haversine_distance` returns `2·R·asin(√a)` with
`a = sin²(Δlat/2) + cos(lat1)·cos(lat2)·sin²(Δlng/2)`, both points
converted from degrees to radians, and `R = 6371.0` km. -/
theorem haversine_distance_eq_spec_formula (lat1 lng1 lat2 lng2 : ℝ) :
    haversine_distance lat1 lng1 lat2 lng2
      = haversineSpecFormula lat1 lng1 lat2 lng2 := by
  unfold haversine_distance haversineSpecFormula
  ring

/-- C9: For every latitude/longitude pair, including all-negative
(southern/western) coordinates, the haversine distance from that point to
itself is exactly 0. -/
theorem haversine_distance_self (lat lng : ℝ) :
    haversine_distance lat lng lat lng = 0 :=
  haversine_distance_self_eq_zero lat lng

/-- C5: For every input row whose field count is not 11, row parsing
returns a structured error (never a validated record) that cites the
row's line number and the actual field count, regardless of the fields'
contents. -/
theorem parse_csv_row_wrong_field_count (row : List String) (n : Nat)
    (h : row.length ≠ 11) :
    parse_csv_row row n =
      .error ("Linha " ++ toString n ++ ": Esperado 11 colunas, encontrado "
              ++ toString row.length) := by
  simp [parse_csv_row, h]

/-- Witness for C5 at a concrete 3-field row. -/
theorem parse_csv_row_wrong_field_count_witness :
    (["a", "b", "c"] : List String).length ≠ 11 ∧
    parse_csv_row ["a", "b", "c"] 3 =
      .error "Linha 3: Esperado 11 colunas, encontrado 3" :=
  ⟨by decide, by rw [parse_csv_row_wrong_field_count ["a", "b", "c"] 3 (by decide)]; rfl⟩

/-- C6: For every 11-field row with parseable id, lat and lng, if the
cleaned population field is empty or all-whitespace the resulting
record's population is absent, and if the cleaned population field fails
to parse as an integer the population is silently absent; in neither case
does the row produce an error or get skipped. -/
theorem parse_csv_row_population_lenient (row : List String) (n : Nat)
    (hlen : row.length = 11)
    (hid : (pyInt ((row.map cleanField).getD 10 "")).isSome)
    (hlat : (pyFloat ((row.map cleanField).getD 2 "")).isSome)
    (hlng : (pyFloat ((row.map cleanField).getD 3 "")).isSome)
    (hpop : pyStrip ((row.map cleanField).getD 9 "") = ""
            ∨ pyInt ((row.map cleanField).getD 9 "") = none) :
    ∃ c, parse_csv_row row n = .ok c ∧ c.population = none := by
  obtain ⟨idv, hid⟩ := Option.isSome_iff_exists.mp hid
  obtain ⟨latv, hlat⟩ := Option.isSome_iff_exists.mp hlat
  obtain ⟨lngv, hlng⟩ := Option.isSome_iff_exists.mp hlng
  simp only [parse_csv_row, hlen, ne_eq, not_true_eq_false, if_false, hid, hlat, hlng,
    reduceCtorEq, ite_false]
  refine ⟨_, rfl, ?_⟩
  dsimp only
  rcases hpop with h9 | h9
  · rw [if_neg]
    rintro ⟨-, h2⟩
    exact h2 h9
  · split
    · exact h9
    · rfl

lemma parse_csv_row_ok_text_fields (row : List String) (n : Nat) (c : CityParsed)
    (h : parse_csv_row row n = .ok c) :
    c.city = cleanField (row.getD 0 "") ∧ c.city_ascii = cleanField (row.getD 1 "")
      ∧ c.country = cleanField (row.getD 4 "") := by
  by_cases hl : row.length = 11
  · simp only [parse_csv_row, hl, ne_eq, not_true_eq_false, if_false] at h
    rcases h10 : pyInt ((row.map cleanField).getD 10 "") with _ | idv <;> rw [h10] at h
    · simp at h
    rcases h2 : pyFloat ((row.map cleanField).getD 2 "") with _ | latv <;> rw [h2] at h
    · simp at h
    rcases h3 : pyFloat ((row.map cleanField).getD 3 "") with _ | lngv <;> rw [h3] at h
    · simp at h
    dsimp only at h
    injection h with h
    subst h
    refine ⟨?_, ?_, ?_⟩ <;> exact getD_map_cleanField row _
  · rw [parse_csv_row, if_pos hl] at h
    simp at h

/-- C8 (amended): during row validation every field has its surrounding
whitespace stripped and then *all* surrounding double-quote characters
removed (not exactly one layer), and the cleaned value — not the raw
value — is what is stored in the validated record. -/
theorem parse_csv_row_stores_cleaned_fields (row : List String) (n : Nat) (c : CityParsed)
    (h : parse_csv_row row n = .ok c) :
    (c.city = cleanField (row.getD 0 "") ∧ c.city_ascii = cleanField (row.getD 1 "")
      ∧ c.country = cleanField (row.getD 4 "")) ∧
    (∀ s ch, ((cleanField s).toList.head? = some ch → ch ≠ '"')
           ∧ ((cleanField s).toList.getLast? = some ch → ch ≠ '"')) ∧
    (∀ s, ∃ t1 t2, (pyStrip s).toList = t1 ++ (cleanField s).toList ++ t2) ∧
    (∀ s, ∃ u1 u2, s.toList = u1 ++ (pyStrip s).toList ++ u2
            ∧ u1.all pyWhitespace ∧ u2.all pyWhitespace) :=
  ⟨parse_csv_row_ok_text_fields row n c h,
   fun s ch => ⟨cleanField_head?_ne_quote s ch, cleanField_getLast?_ne_quote s ch⟩,
   cleanField_decomposition,
   pyStrip_decomposition⟩

/-- Counterexample to C8 as stated: on the field `""a""` (two layers of
quotes) the code stores `a`, while removing exactly one layer of quotes
would store `"a"`. -/
theorem parse_csv_row_one_quote_layer_counterexample :
    cleanField "\"\"a\"\"" = "a" ∧
    cleanFieldOneLayer "\"\"a\"\"" = "\"a\"" ∧
    (∃ c, parse_csv_row ["\"\"a\"\"", "b", "1", "2", "BR", "", "", "", "", "", "5"] 1 = .ok c
        ∧ c.city = "a" ∧ c.city ≠ cleanFieldOneLayer "\"\"a\"\"") :=
  ⟨by decide, by decide,
   ⟨{ id := 5, city := "a", city_ascii := "b", lat := 1, lng := 2, country := "BR",
      iso2 := none, iso3 := none, admin_name := none, capital := none, population := none },
    by decide, by decide, by decide⟩⟩

/-- Witness for C8 (amended) at a concrete row. -/
theorem parse_csv_row_stores_cleaned_fields_witness :
    ∃ c, parse_csv_row ["  \" x \"", "b", "1", "2", "BR", "", "", "", "", "", "5"] 1 = .ok c
      ∧ ((c.city = cleanField "  \" x \"" ∧ c.city_ascii = cleanField "b"
            ∧ c.country = cleanField "BR") ∧
         (∀ s ch, ((cleanField s).toList.head? = some ch → ch ≠ '"')
                ∧ ((cleanField s).toList.getLast? = some ch → ch ≠ '"')) ∧
         (∀ s, ∃ t1 t2, (pyStrip s).toList = t1 ++ (cleanField s).toList ++ t2) ∧
         (∀ s, ∃ u1 u2, s.toList = u1 ++ (pyStrip s).toList ++ u2
                 ∧ u1.all pyWhitespace ∧ u2.all pyWhitespace)) :=
  ⟨{ id := 5, city := " x ", city_ascii := "b", lat := 1, lng := 2, country := "BR",
     iso2 := none, iso3 := none, admin_name := none, capital := none, population := none },
   by decide,
   parse_csv_row_stores_cleaned_fields
     ["  \" x \"", "b", "1", "2", "BR", "", "", "", "", "", "5"] 1
     { id := 5, city := " x ", city_ascii := "b", lat := 1, lng := 2, country := "BR",
       iso2 := none, iso3 := none, admin_name := none, capital := none, population := none }
     (by decide)⟩

/-- C10: For every import request that completes with a success response,
the returned counters satisfy
`inserted + updated + skipped == total_processed`, where
`total_processed` counts the data rows after the header. -/
theorem import_cities_counters_partition (filename : String) (rows : List (List String))
    (oracle : BatchOracle) (store : List City) (res : ImportResult)
    (h : (import_cities filename rows oracle store).1 = .ok res) :
    res.inserted + res.updated + res.skipped = res.total_processed := by
  unfold import_cities at h
  split at h
  · simp at h
  · split at h
    · simp at h
    · split at h
      · simp at h
      · rename_i hcsv rows header dataRows hheader
        dsimp only at h
        injection h with h
        subst h
        have hinv := finalFlush_countInv oracle
          (List.foldl (processRow oracle) ⟨store, 0, 0, 0, [], [], 0⟩ dataRows)
          (foldl_processRow_countInv oracle dataRows ⟨store, 0, 0, 0, [], [], 0⟩ rfl)
        have hbatch := finalFlush_batch_nil oracle
          (List.foldl (processRow oracle) ⟨store, 0, 0, 0, [], [], 0⟩ dataRows)
        unfold CountInv at hinv
        rw [hbatch] at hinv
        unfold resultOfState runImport
        dsimp only
        simpa using hinv

/-- C2: For every store state (with the primary-key invariant), non-empty
reference ID list and positive radius, a successful radius search returns
exactly the distinct stored records (each ID at most once) whose
haversine distance from at least one reference record is ≤ the radius and
whose ID differs from that reference's ID, and the returned count equals
the length of the returned data list. -/
theorem radius_search_characterization (store : List City) (city_ids : List Int)
    (radius_km : ℝ) (resp : CitiesResponse)
    (h1 : (storeIds store).Nodup) (h2 : city_ids ≠ []) (h3 : 0 < radius_km)
    (h : get_cities_within_radius store city_ids radius_km = .ok resp) :
    resp.count = resp.data.length ∧
    (storeIds resp.data).Nodup ∧
    ∀ c, c ∈ resp.data ↔ c ∈ store ∧ ∃ ref ∈ store, ref.id ∈ city_ids ∧ ref.id ≠ c.id ∧
      haversine_distance ref.lat ref.lng c.lat c.lng ≤ radius_km := by
  unfold get_cities_within_radius at h
  dsimp only at h
  split at h
  · simp at h
  · split at h
    · simp at h
    · injection h with h
      subst h
      refine ⟨rfl, ?_, ?_⟩
      · exact outer_fold_nodupIds radius_km store _ [] List.nodup_nil
      · intro c
        dsimp only
        rw [mem_outer_fold radius_km store h1 _ []
          (fun y hy => absurd hy (List.not_mem_nil y)) List.nodup_nil c]
        simp only [List.not_mem_nil, false_or]
        constructor
        · rintro ⟨ref, href, hmem, hne, hdist⟩
          obtain ⟨hrs, hrid⟩ := List.mem_filter.mp href
          exact ⟨hmem, ref, hrs, (contains_iff_mem _ _).mp hrid, Ne.symm hne, hdist⟩
        · rintro ⟨hmem, ref, hrs, hrid, hne, hdist⟩
          exact ⟨ref, List.mem_filter.mpr ⟨hrs, (contains_iff_mem _ _).mpr hrid⟩,
            hmem, Ne.symm hne, hdist⟩

/-- Witness for C2: two cities at the same coordinates; a radius search
around the first returns exactly the second, once. -/
theorem radius_search_characterization_witness :
    (storeIds
      [⟨1, "A", "A", 0, 0, "X", none, none, none, none, none⟩,
       ⟨2, "B", "B", 0, 0, "X", none, none, none, none, none⟩]).Nodup ∧
    ([1] : List Int) ≠ [] ∧ (0 : ℝ) < 1 ∧
    get_cities_within_radius
      [⟨1, "A", "A", 0, 0, "X", none, none, none, none, none⟩,
       ⟨2, "B", "B", 0, 0, "X", none, none, none, none, none⟩] [1] 1
      = .ok ⟨1, [⟨2, "B", "B", 0, 0, "X", none, none, none, none, none⟩]⟩ ∧
    ((⟨1, [⟨2, "B", "B", 0, 0, "X", none, none, none, none, none⟩]⟩ : CitiesResponse).count
        = (⟨1, [⟨2, "B", "B", 0, 0, "X", none, none, none, none, none⟩]⟩ :
            CitiesResponse).data.length ∧
      (storeIds (⟨1, [⟨2, "B", "B", 0, 0, "X", none, none, none, none, none⟩]⟩ :
          CitiesResponse).data).Nodup ∧
      ∀ c, c ∈ (⟨1, [⟨2, "B", "B", 0, 0, "X", none, none, none, none, none⟩]⟩ :
            CitiesResponse).data ↔
        c ∈ [⟨1, "A", "A", 0, 0, "X", none, none, none, none, none⟩,
             ⟨2, "B", "B", 0, 0, "X", none, none, none, none, none⟩] ∧
        ∃ ref ∈ [(⟨1, "A", "A", 0, 0, "X", none, none, none, none, none⟩ : City),
                 ⟨2, "B", "B", 0, 0, "X", none, none, none, none, none⟩],
          ref.id ∈ [(1 : Int)] ∧ ref.id ≠ c.id ∧
          haversine_distance ref.lat ref.lng c.lat c.lng ≤ 1) := by
  have hd : haversine_distance
      (⟨1, "A", "A", 0, 0, "X", none, none, none, none, none⟩ : City).lat
      (⟨1, "A", "A", 0, 0, "X", none, none, none, none, none⟩ : City).lng
      (⟨2, "B", "B", 0, 0, "X", none, none, none, none, none⟩ : City).lat
      (⟨2, "B", "B", 0, 0, "X", none, none, none, none, none⟩ : City).lng ≤ 1 := by
    show haversine_distance 0 0 0 0 ≤ 1
    rw [haversine_distance_self_eq_zero]
    norm_num
  have hstep : radiusStep (1 : ℝ)
      ⟨1, "A", "A", 0, 0, "X", none, none, none, none, none⟩ []
      ⟨2, "B", "B", 0, 0, "X", none, none, none, none, none⟩
      = [⟨2, "B", "B", 0, 0, "X", none, none, none, none, none⟩] := by
    unfold radiusStep
    rw [if_neg (by decide :
      ¬ ((⟨2, "B", "B", 0, 0, "X", none, none, none, none, none⟩ : City).id
        = (⟨1, "A", "A", 0, 0, "X", none, none, none, none, none⟩ : City).id))]
    rw [if_pos hd]
    rfl
  have hok : get_cities_within_radius
      [⟨1, "A", "A", 0, 0, "X", none, none, none, none, none⟩,
       ⟨2, "B", "B", 0, 0, "X", none, none, none, none, none⟩] [1] 1
      = .ok ⟨1, [⟨2, "B", "B", 0, 0, "X", none, none, none, none, none⟩]⟩ := by
    show Except.ok (⟨(radiusStep (1 : ℝ)
        ⟨1, "A", "A", 0, 0, "X", none, none, none, none, none⟩ []
        ⟨2, "B", "B", 0, 0, "X", none, none, none, none, none⟩).length,
        radiusStep (1 : ℝ) ⟨1, "A", "A", 0, 0, "X", none, none, none, none, none⟩ []
        ⟨2, "B", "B", 0, 0, "X", none, none, none, none, none⟩⟩ : CitiesResponse)
      = .ok ⟨1, [⟨2, "B", "B", 0, 0, "X", none, none, none, none, none⟩]⟩
    rw [hstep]
    rfl
  exact ⟨by decide, by decide, by norm_num, hok,
    radius_search_characterization _ [1] 1 _ (by decide) (by decide) (by norm_num) hok⟩

/-- C3 (amended): for pairwise-distinct requested IDs, the radius
endpoint fails with a not-found error iff some requested ID does not
resolve to a stored record; when at least one but not all requested IDs
resolve, the error identifies exactly the unresolved requested IDs,
sorted ascending; when none resolves, the error is the generic
no-reference-cities message carrying no ID list. -/
theorem radius_not_found_characterization (store : List City) (city_ids : List Int)
    (radius_km : ℝ)
    (h1 : (storeIds store).Nodup) (h2 : city_ids.Nodup) (h3 : city_ids ≠ []) :
    ((∃ e, get_cities_within_radius store city_ids radius_km = .error e)
        ↔ ∃ i ∈ city_ids, i ∉ storeIds store)
    ∧ (get_cities_within_radius store city_ids radius_km = .error .noneFound
        ↔ ∀ i ∈ city_ids, i ∉ storeIds store)
    ∧ (∀ miss, get_cities_within_radius store city_ids radius_km
          = .error (.someMissing miss)
        ↔ ((∃ i ∈ city_ids, i ∈ storeIds store) ∧ (∃ i ∈ city_ids, i ∉ storeIds store)
            ∧ miss = List.insertionSort (fun a b => a ≤ b)
                (city_ids.filter (fun i => !((storeIds store).contains i)))))
    ∧ (∀ miss, get_cities_within_radius store city_ids radius_km
          = .error (.someMissing miss) →
        miss.Sorted (· ≤ ·) ∧ ∀ i : Int, (i ∈ miss ↔ i ∈ city_ids ∧ i ∉ storeIds store)) := by
  have hF1 : store.filter (fun c => city_ids.contains c.id) = []
      ↔ ∀ i ∈ city_ids, i ∉ storeIds store := by
    rw [List.filter_eq_nil_iff]
    constructor
    · intro hall i hi hmem
      obtain ⟨c, hc, rfl⟩ := List.mem_map.mp hmem
      exact hall c hc ((contains_iff_mem _ _).mpr hi)
    · intro hall c hc hcont
      exact hall c.id ((contains_iff_mem _ _).mp hcont) (List.mem_map_of_mem City.id hc)
  have flen : (store.filter (fun c => city_ids.contains c.id)).length
      = (city_ids.filter (fun i => (storeIds store).contains i)).length := by
    have s1 : (storeIds store).filter (fun i => city_ids.contains i)
        = List.map City.id (store.filter (fun c => city_ids.contains c.id)) := by
      unfold storeIds
      rw [List.map_filter]
      rfl
    have s2 : ((storeIds store).filter (fun i => city_ids.contains i)).Perm
        (city_ids.filter (fun i => (storeIds store).contains i)) := by
      apply List.perm_of_nodup_nodup_toFinset_eq (h1.filter _) (h2.filter _)
      ext i
      simp only [List.mem_toFinset, List.mem_filter]
      constructor
      · rintro ⟨hmem, hcont⟩
        exact ⟨(contains_iff_mem _ _).mp hcont, (contains_iff_mem _ _).mpr hmem⟩
      · rintro ⟨hmem, hcont⟩
        exact ⟨(contains_iff_mem _ _).mp hcont, (contains_iff_mem _ _).mpr hmem⟩
    calc (store.filter (fun c => city_ids.contains c.id)).length
        = (List.map City.id (store.filter (fun c => city_ids.contains c.id))).length :=
          (List.length_map _ _).symm
      _ = ((storeIds store).filter (fun i => city_ids.contains i)).length := by rw [s1]
      _ = (city_ids.filter (fun i => (storeIds store).contains i)).length := s2.length_eq
  have hparts : (city_ids.filter (fun i => !((storeIds store).contains i))).length
      + (city_ids.filter (fun i => (storeIds store).contains i)).length
      = city_ids.length :=
    length_filter_not_add_length_filter city_ids _
  have hF4 : (∃ i ∈ city_ids, i ∉ storeIds store)
      ↔ ¬ (city_ids.filter (fun i => !((storeIds store).contains i)) = []) := by
    rw [List.filter_eq_nil_iff]
    push_neg
    constructor
    · rintro ⟨i, hi, hni⟩
      refine ⟨i, hi, ?_⟩
      simp only [Bool.not_eq_true']
      rw [← Bool.not_eq_true]
      intro hc
      exact hni ((contains_iff_mem _ _).mp hc)
    · rintro ⟨i, hi, hp⟩
      refine ⟨i, hi, ?_⟩
      intro hmem
      rw [(contains_iff_mem _ _).mpr hmem] at hp
      simp at hp
  unfold get_cities_within_radius
  dsimp only
  split_ifs with hA hB
  · -- no reference city resolves
    have hall : ∀ i ∈ city_ids, i ∉ storeIds store := hF1.mp (List.isEmpty_iff.mp hA)
    obtain ⟨i0, hi0⟩ := List.exists_mem_of_ne_nil city_ids h3
    refine ⟨iff_of_true ⟨.noneFound, rfl⟩ ⟨i0, hi0, hall i0 hi0⟩,
      iff_of_true rfl hall, ?_, ?_⟩
    · intro miss
      refine iff_of_false (by simp) ?_
      rintro ⟨⟨i, hi, hmem⟩, -, -⟩
      exact hall i hi hmem
    · intro miss heq
      exact absurd heq (by simp)
  · -- some but not all requested IDs resolve
    have hne : store.filter (fun c => city_ids.contains c.id) ≠ [] := by
      intro h0
      rw [h0] at hA
      exact hA rfl
    obtain ⟨c0, hc0⟩ := List.exists_mem_of_ne_nil _ hne
    obtain ⟨hc0s, hc0c⟩ := List.mem_filter.mp hc0
    have hex_found : ∃ i ∈ city_ids, i ∈ storeIds store :=
      ⟨c0.id, (contains_iff_mem _ _).mp hc0c, List.mem_map_of_mem City.id hc0s⟩
    have hmissne : city_ids.filter (fun i => !((storeIds store).contains i)) ≠ [] := by
      intro h0
      rw [flen] at hB
      rw [h0] at hparts
      simp only [List.length_nil] at hparts
      omega
    have hex_miss : ∃ i ∈ city_ids, i ∉ storeIds store := hF4.mpr hmissne
    have hmiss_eq : List.insertionSort (fun a b => a ≤ b)
        (List.filter
          (fun i => !((storeIds (store.filter (fun c => city_ids.contains c.id))).contains i))
          city_ids.dedup)
        = List.insertionSort (fun a b => a ≤ b)
          (city_ids.filter (fun i => !((storeIds store).contains i))) := by
      rw [h2.dedup]
      congr 1
      apply List.filter_congr
      intro i hi
      have hiff : (storeIds (store.filter (fun c => city_ids.contains c.id))).contains i
          = (storeIds store).contains i := by
        rw [Bool.eq_iff_iff]
        rw [contains_iff_mem, contains_iff_mem]
        constructor
        · intro hm
          obtain ⟨c, hc, rfl⟩ := List.mem_map.mp hm
          exact List.mem_map_of_mem City.id (List.mem_filter.mp hc).1
        · intro hm
          obtain ⟨c, hc, rfl⟩ := List.mem_map.mp hm
          exact List.mem_map_of_mem City.id
            (List.mem_filter.mpr ⟨hc, (contains_iff_mem _ _).mpr hi⟩)
      rw [hiff]
    refine ⟨iff_of_true ⟨.someMissing _, rfl⟩ hex_miss, iff_of_false (by simp) ?_, ?_, ?_⟩
    · intro hall
      obtain ⟨i, hi, hmem⟩ := hex_found
      exact hall i hi hmem
    · intro miss
      constructor
      · intro heq
        injection heq with heq
        cases heq
        exact ⟨hex_found, hex_miss, hmiss_eq⟩
      · rintro ⟨-, -, rfl⟩
        rw [hmiss_eq]
    · intro miss heq
      injection heq with heq
      cases heq
      constructor
      · rw [hmiss_eq]
        exact List.sorted_insertionSort _ _
      · intro i
        rw [hmiss_eq, (List.perm_insertionSort _ _).mem_iff, List.mem_filter]
        constructor
        · rintro ⟨hi, hp⟩
          refine ⟨hi, ?_⟩
          intro hmem
          rw [(contains_iff_mem _ _).mpr hmem] at hp
          simp at hp
        · rintro ⟨hi, hni⟩
          refine ⟨hi, ?_⟩
          simp only [Bool.not_eq_true']
          rw [← Bool.not_eq_true]
          intro hc
          exact hni ((contains_iff_mem _ _).mp hc)
  · -- every requested ID resolves: success
    have hne : store.filter (fun c => city_ids.contains c.id) ≠ [] := by
      intro h0
      rw [h0] at hA
      exact hA rfl
    obtain ⟨c0, hc0⟩ := List.exists_mem_of_ne_nil _ hne
    obtain ⟨hc0s, hc0c⟩ := List.mem_filter.mp hc0
    have hex_found : ∃ i ∈ city_ids, i ∈ storeIds store :=
      ⟨c0.id, (contains_iff_mem _ _).mp hc0c, List.mem_map_of_mem City.id hc0s⟩
    have hnomiss : ¬ ∃ i ∈ city_ids, i ∉ storeIds store := by
      rw [hF4, not_not, ← List.length_eq_zero]
      rw [flen] at hB
      omega
    refine ⟨iff_of_false (by simp) hnomiss, iff_of_false (by simp) ?_, ?_, ?_⟩
    · intro hall
      obtain ⟨i, hi, hmem⟩ := hex_found
      exact hall i hi hmem
    · intro miss
      refine iff_of_false (by simp) ?_
      rintro ⟨-, hm, -⟩
      exact hnomiss hm
    · intro miss heq
      exact absurd heq (by simp)

/-- Counterexample to C3 as stated.  First: when *no* requested ID
resolves (store empty, request `[99]`), the endpoint does fail, but with
the generic `noneFound` error that does not identify the unresolved IDs
`[99]`.  Second: when the request repeats an ID (`[1, 1]`) that *does*
resolve, the endpoint still fails (with an empty missing list) even
though every requested ID resolves — so failure is not equivalent to
"some requested ID does not resolve". -/
theorem radius_not_found_counterexample :
    get_cities_within_radius ([] : List City) [99] 1 = .error .noneFound ∧
    RadiusError.noneFound ≠ .someMissing [99] ∧
    get_cities_within_radius
      [⟨1, "A", "A", 0, 0, "X", none, none, none, none, none⟩] [1, 1] 1
      = .error (.someMissing []) ∧
    (∀ i ∈ ([1, 1] : List Int),
      i ∈ storeIds [(⟨1, "A", "A", 0, 0, "X", none, none, none, none, none⟩ : City)]) :=
  ⟨rfl, by decide, rfl, by decide⟩

/-- Witness for C3 (amended): store `[city 1]`, request `[1, 5]` — the
search fails naming exactly `[5]`. -/
theorem radius_not_found_characterization_witness :
    (storeIds [(⟨1, "A", "A", 0, 0, "X", none, none, none, none, none⟩ : City)]).Nodup ∧
    ([1, 5] : List Int).Nodup ∧ ([1, 5] : List Int) ≠ [] ∧
    (((∃ e, get_cities_within_radius
          [(⟨1, "A", "A", 0, 0, "X", none, none, none, none, none⟩ : City)] [1, 5] 1
          = .error e)
        ↔ ∃ i ∈ ([1, 5] : List Int),
            i ∉ storeIds [(⟨1, "A", "A", 0, 0, "X", none, none, none, none, none⟩ : City)])
    ∧ (get_cities_within_radius
          [(⟨1, "A", "A", 0, 0, "X", none, none, none, none, none⟩ : City)] [1, 5] 1
          = .error .noneFound
        ↔ ∀ i ∈ ([1, 5] : List Int),
            i ∉ storeIds [(⟨1, "A", "A", 0, 0, "X", none, none, none, none, none⟩ : City)])
    ∧ (∀ miss, get_cities_within_radius
          [(⟨1, "A", "A", 0, 0, "X", none, none, none, none, none⟩ : City)] [1, 5] 1
          = .error (.someMissing miss)
        ↔ ((∃ i ∈ ([1, 5] : List Int),
              i ∈ storeIds [(⟨1, "A", "A", 0, 0, "X", none, none, none, none, none⟩ : City)])
            ∧ (∃ i ∈ ([1, 5] : List Int),
              i ∉ storeIds [(⟨1, "A", "A", 0, 0, "X", none, none, none, none, none⟩ : City)])
            ∧ miss = List.insertionSort (fun a b => a ≤ b)
                (([1, 5] : List Int).filter (fun i =>
                  !((storeIds [(⟨1, "A", "A", 0, 0, "X", none, none, none, none,
                      none⟩ : City)]).contains i)))))
    ∧ (∀ miss, get_cities_within_radius
          [(⟨1, "A", "A", 0, 0, "X", none, none, none, none, none⟩ : City)] [1, 5] 1
          = .error (.someMissing miss) →
        miss.Sorted (· ≤ ·) ∧ ∀ i : Int, (i ∈ miss ↔ i ∈ ([1, 5] : List Int)
          ∧ i ∉ storeIds
              [(⟨1, "A", "A", 0, 0, "X", none, none, none, none, none⟩ : City)]))) :=
  ⟨by decide, by decide, by decide,
   radius_not_found_characterization
     [(⟨1, "A", "A", 0, 0, "X", none, none, none, none, none⟩ : City)] [1, 5] 1
     (by decide) (by decide) (by decide)⟩

/-- C4 (code evaluation at the failing inputs): the extension guard does
reject with a 400 client error before any processing, but an empty
upload, and likewise a blank header line, is answered with a *500
server* error — the `HTTPException(400, "CSV vazio ou sem header")` is
raised inside the `try:` block, so the blanket `except Exception`
catches it and re-raises it as
`HTTPException(500, "Erro ao processar arquivo: 400: CSV vazio ou sem header")`.
In all three cases the store is returned unchanged (no write occurs) and
no row is processed. -/
theorem import_cities_failfast_evaluation (store : List City) (oracle : BatchOracle) :
    import_cities "cities.txt" [["h"], ["x"]] oracle store
      = (.error ⟨400, "Arquivo deve ser CSV"⟩, store) ∧
    import_cities "cities.csv" [] oracle store
      = (.error ⟨500, "Erro ao processar arquivo: 400: CSV vazio ou sem header"⟩, store) ∧
    import_cities "cities.csv" [[]] oracle store
      = (.error ⟨500, "Erro ao processar arquivo: 400: CSV vazio ou sem header"⟩, store) :=
  ⟨rfl, rfl, rfl⟩

/-- C1: For every CSV file whose rows all parse successfully and whose
batch writes all succeed, importing the file a second time without
intervening modifications yields, on the second run, `inserted == 0` and
`updated ==` the number of valid rows in the file. -/
theorem import_unchanged_file_idempotent
    (filename : String) (header : List String) (dataRows : List (List String))
    (store0 : List City) (oracle : BatchOracle)
    (h_o : ∀ b s, oracle b s = none)
    (hf : pyEndsWith filename ".csv" = true)
    (hh : header.isEmpty = false)
    (hparse : ∀ row ∈ dataRows, (parseOk row).isSome) :
    ∃ res1 store1 res2 store2,
      import_cities filename (header :: dataRows) oracle store0 = (.ok res1, store1) ∧
      import_cities filename (header :: dataRows) oracle store1 = (.ok res2, store2) ∧
      res2.inserted = 0 ∧ res2.updated = dataRows.length := by
  have e1 := import_cities_ok_eq filename header dataRows oracle store0 hf hh
  have e2 := import_cities_ok_eq filename header dataRows oracle
    (runImport oracle store0 dataRows).store hf hh
  refine ⟨_, _, _, _, e1, e2, ?_, ?_⟩ <;>
  · have hrows : ∀ row ∈ dataRows, ∃ c, parseOk row = some c
        ∧ c.id ∈ storeIds (runImport oracle store0 dataRows).store := by
      intro row hr
      obtain ⟨c, hc⟩ := Option.isSome_iff_exists.mp (hparse row hr)
      exact ⟨c, hc, runImport_covers_ids oracle h_o store0 dataRows row c hr hc⟩
    have hinv0 : SecondRunInv (storeIds (runImport oracle store0 dataRows).store)
        ⟨(runImport oracle store0 dataRows).store, 0, 0, 0, [], [], 0⟩ :=
      ⟨rfl, rfl, rfl, rfl, fun c hc => absurd hc (List.not_mem_nil c)⟩
    have hinv := finalFlush_secondRunInv oracle _ _ h_o
      (foldl_processRow_secondRunInv oracle _ h_o dataRows hrows _ hinv0)
    obtain ⟨hs, hi, hk, hu, hb⟩ := hinv
    first
    | exact hi
    | · rw [finalFlush_batch_nil] at hu
        simp only [List.length_nil, Nat.add_zero] at hu
        show (finalFlush oracle _).updated = dataRows.length
        rw [hu]
        show (finalFlush oracle _).line_number = dataRows.length
        rw [finalFlush_line, foldl_processRow_line]
        show 0 + dataRows.length = dataRows.length
        omega

/-- Witness for C1: a one-row file imported twice into an empty store;
the second run reports 0 inserted and 1 updated. -/
theorem import_unchanged_file_idempotent_witness :
    (∀ b s, (fun (_ : List CityParsed) (_ : List City) => (none : Option String)) b s
        = none) ∧
    pyEndsWith "cities.csv" ".csv" = true ∧
    ([("city" : String)].isEmpty = false) ∧
    (∀ row ∈ [["SP", "SP", "1.5", "2.5", "BR", "br", "bra", "St", "primary", "100", "7"]],
      (parseOk row).isSome) ∧
    (∃ res1 store1 res2 store2,
      import_cities "cities.csv"
        [["city"], ["SP", "SP", "1.5", "2.5", "BR", "br", "bra", "St", "primary", "100", "7"]]
        (fun _ _ => none) [] = (.ok res1, store1) ∧
      import_cities "cities.csv"
        [["city"], ["SP", "SP", "1.5", "2.5", "BR", "br", "bra", "St", "primary", "100", "7"]]
        (fun _ _ => none) store1 = (.ok res2, store2) ∧
      res2.inserted = 0 ∧ res2.updated = 1) :=
  ⟨fun _ _ => rfl, by decide, by decide, by decide,
   import_unchanged_file_idempotent "cities.csv" ["city"]
     [["SP", "SP", "1.5", "2.5", "BR", "br", "bra", "St", "primary", "100", "7"]]
     [] (fun _ _ => none) (fun _ _ => rfl) (by decide) (by decide) (by decide)⟩

/-- Witness for C10: a two-row file (one valid row, one bad row) imported
into an empty store. -/
theorem import_cities_counters_partition_witness :
    (import_cities "cities.csv"
        [["h"], ["SP", "SP", "1.5", "2.5", "BR", "br", "bra", "St", "primary", "100", "7"],
         ["bad"]]
        (fun _ _ => none) []).1 =
      .ok { inserted := 1, updated := 0, skipped := 1, total_processed := 2,
            errors := ["Linha 2: Esperado 11 colunas, encontrado 1"],
            message := "Processado: 1 inseridas, 0 atualizadas, 1 ignoradas" } ∧
    (1 : Nat) + 0 + 1 = 2 :=
  ⟨by decide,
   import_cities_counters_partition "cities.csv"
     [["h"], ["SP", "SP", "1.5", "2.5", "BR", "br", "bra", "St", "primary", "100", "7"],
      ["bad"]]
     (fun _ _ => none) []
     { inserted := 1, updated := 0, skipped := 1, total_processed := 2,
       errors := ["Linha 2: Esperado 11 colunas, encontrado 1"],
       message := "Processado: 1 inseridas, 0 atualizadas, 1 ignoradas" }
     (by decide)⟩

/-- Witness for C6 at a concrete row whose population field is the
unparseable string `"abc"`. -/
theorem parse_csv_row_population_lenient_witness :
    (["SP", "SP", "1.5", "2.5", "BR", "br", "bra", "St", "primary", "abc", "7"] :
        List String).length = 11 ∧
    pyInt (((["SP", "SP", "1.5", "2.5", "BR", "br", "bra", "St", "primary", "abc", "7"] :
        List String).map cleanField).getD 9 "") = none ∧
    ∃ c, parse_csv_row
        ["SP", "SP", "1.5", "2.5", "BR", "br", "bra", "St", "primary", "abc", "7"] 1 = .ok c
      ∧ c.population = none :=
  ⟨rfl, by decide,
    parse_csv_row_population_lenient _ 1 rfl (by decide) (by decide) (by decide)
      (Or.inr (by decide))⟩

end Cities
